import Mathlib

/-!
Verification development for the natural-language-to-SQL pipeline of the DAS
repository (`app/services/advanced_sql_service.py`).

The Python source is shallowly embedded: the regex-based extraction rules of
`NaturalLanguageProcessor`, the clause builders and assembler of
`AdvancedSQLService`, and the text-scanning heuristics of `QueryOptimizer`
are translated into executable Lean functions.  Two external effects are made
explicit parameters:

* the wall clock (`datetime.now()`), modelled by a `Clock` value carrying the
  components and renderings the source reads — the pattern table captures one
  clock at construction time (the f-string entries) while the rule lambdas
  read the clock again at match time;
* CPython's set iteration order (`list(set)[0]` in `_build_from_clause`, and
  the table set of `_generate_explanation`), modelled by a `set_order`
  function on the insertion-ordered list of distinct elements.

Python exceptions are modelled with `Except String`: the only fallible step
of the pipeline is the evaluation of a matched relative-time rule, whose
`timedelta`/`datetime` arithmetic can overflow.
-/

namespace DAS

/-- Characters matched by `\s` in Python regexes, restricted to the ASCII
whitespace actually reachable from this service's inputs of interest.
(Other Unicode whitespace code points also match `\s` in Python; they do not
occur in any string this development evaluates.) -/
def isPySpace (c : Char) : Bool :=
  c = ' ' || c = '\t' || c = '\n' || c = '\r' || c = '\x0b' || c = '\x0c'

/-- Characters matched by `\d` in Python regexes (ASCII decimal digits; other
Unicode decimal digits are not modelled). -/
def isPyDigit (c : Char) : Bool := c.isDigit

/-- Characters matched by `\w` (hence separating `\b` word boundaries) for the
alphabet appearing in this service's generated SQL and rule tables: ASCII
alphanumerics, underscore, and Hangul syllables. -/
def isWordChar (c : Char) : Bool :=
  c.isAlphanum || c = '_' || (0xAC00 ≤ c.toNat && c.toNat ≤ 0xD7A3)

/-- Length of the maximal `\s*` run at the head of the text (greedy, which is
deterministic here because every continuation pattern starts with a
non-whitespace character). -/
def spacesLen (s : List Char) : Nat := (s.takeWhile isPySpace).length

/-- One alternative of a Python regex alternation as used by the rule tables:
either a plain literal, or two literals separated by `\s*`. -/
inductive Pat where
  | lit (l : String)
  | lit2 (a b : String)
deriving DecidableEq

/-- Match one `Pat` at the head of the text, returning the match length.
Mirrors Python's leftmost semantics at a fixed position; `\s*` is taken
greedily, which is exact because the second literal of every `lit2` pattern
begins with a non-whitespace character. -/
def matchPatC : Pat → List Char → Option Nat
  | .lit l, s => if l.toList.isPrefixOf s then some l.toList.length else none
  | .lit2 a b, s =>
      if a.toList.isPrefixOf s then
        let r := s.drop a.toList.length
        let k := spacesLen r
        if b.toList.isPrefixOf (r.drop k) then
          some (a.toList.length + k + b.toList.length)
        else none
      else none

/-- Try the alternatives of an alternation in order (Python's `|` prefers the
leftmost alternative at each position). -/
def matchAlts (alts : List Pat) (s : List Char) : Option Nat :=
  match alts with
  | [] => none
  | p :: ps =>
      match matchPatC p s with
      | some n => some n
      | none => matchAlts ps s

/-- Generic `re.search`: try the matcher at every position left to right
(including the final empty suffix, as Python does). -/
def pySearch {β : Type} (m : List Char → Option β) : List Char → Option β
  | [] => m []
  | s@(_ :: rest) =>
      match m s with
      | some b => some b
      | none => pySearch m rest

/-- `re.search(pattern, q) is not None` for an alternation of `Pat`s. -/
def searchPats (alts : List Pat) (q : String) : Bool :=
  (pySearch (matchAlts alts) q.toList).isSome

/-- Plain substring containment: Python's `needle in hay`. -/
def sContains (hay needle : String) : Bool :=
  (pySearch (matchPatC (.lit needle)) hay.toList).isSome

/-- Scanner core for `re.finditer`: at skip count 0 try the matcher; on a match
of length `len` emit its value and resume after the match (Python resumes one
character later for a zero-width match, which `len - 1` under truncated
subtraction reproduces; the patterns used here never match the empty string).
The matcher is not tried at the final empty suffix, which is inert for the
same reason. -/
def scanGo {α : Type} (m : List Char → Option (α × Nat)) : Nat → List Char → List α
  | _, [] => []
  | Nat.succ k, _ :: rest => scanGo m k rest
  | 0, c :: rest =>
      match m (c :: rest) with
      | some (a, len) => a :: scanGo m (len - 1) rest
      | none => scanGo m 0 rest

/-- All values produced by `re.finditer` over the text. -/
def pyScan {α : Type} (m : List Char → Option (α × Nat)) (s : List Char) : List α :=
  scanGo m 0 s

/-- Scanner that also tracks the previous character, for matchers that test a
`\b` word boundary on their left. -/
def scanGoB {α : Type} (m : Option Char → List Char → Option (α × Nat)) :
    Option Char → Nat → List Char → List α
  | _, _, [] => []
  | _, Nat.succ k, c :: rest => scanGoB m (some c) k rest
  | prev, 0, c :: rest =>
      match m prev (c :: rest) with
      | some (a, len) => a :: scanGoB m (some c) (len - 1) rest
      | none => scanGoB m (some c) 0 rest

/-- `re.finditer` with left-context tracking, starting at the text's head. -/
def pyScanB {α : Type} (m : Option Char → List Char → Option (α × Nat)) (s : List Char) :
    List α :=
  scanGoB m none 0 s

/-- Word boundary on the left of the current position. -/
def boundaryL (prev : Option Char) : Bool :=
  match prev with
  | none => true
  | some c => !isWordChar c

/-- Word boundary on the right of a consumed token. -/
def boundaryR (rest : List Char) : Bool :=
  match rest with
  | [] => true
  | c :: _ => !isWordChar c

/-- Interpret `int()` on a captured `\d+` group (always a non-empty ASCII
digit string, so Python's `int` cannot fail on it). -/
def pyInt (ds : List Char) : Nat :=
  ds.foldl (fun n c => n * 10 + (c.toNat - '0'.toNat)) 0

/-- Lowercasing as Python's `str.lower()` acts on the ASCII range (the Korean
characters of the rule tables are unaffected by either implementation). -/
def pyLower (s : String) : String := String.mk (s.toList.map Char.toLower)

/-- A reading of `datetime.now()`: the components the source interpolates into
static pattern strings, plus the rendering `str(now - timedelta(...))` used by
the computed rules, which fails (Python `OverflowError`) when the subtraction
leaves the representable datetime range.  `minusDaysStr d` stands for
`str(now - timedelta(days = d))` and `minusWeeksStr w` for
`str(now - timedelta(weeks = w))`. -/
structure Clock where
  year : Int
  month : Nat
  minusDaysStr : Nat → Except String String
  minusWeeksStr : Nat → Except String String

/-- `timedelta` rejects day magnitudes above 999999999 with `OverflowError`. -/
def timedeltaMaxDays : Nat := 999999999

/-- Construction of `timedelta(days = d)` (the value itself is irrelevant,
only the overflow check is observable downstream). -/
def timedeltaDays (d : Nat) : Except String Unit :=
  if d ≤ timedeltaMaxDays then .ok () else
    .error ("days=" ++ toString d ++ "; must have magnitude <= 999999999")

/-- Construction of `timedelta(weeks = w)`, which normalises to `7 * w` days. -/
def timedeltaWeeks (w : Nat) : Except String Unit :=
  if 7 * w ≤ timedeltaMaxDays then .ok () else
    .error ("days=" ++ toString (7 * w) ++ "; must have magnitude <= 999999999")

/-- Match `지난\s*(\d+)\s*SUF` at the current position, returning the captured
digit group and the match length.  Greedy `\s*`/`\d+` are deterministic here
because the neighbouring pieces are drawn from disjoint character classes. -/
def matchPreNum (pre suf : String) (s : List Char) : Option (List Char × Nat) :=
  if pre.toList.isPrefixOf s then
    let r1 := s.drop pre.toList.length
    let k1 := spacesLen r1
    let r2 := r1.drop k1
    let ds := r2.takeWhile isPyDigit
    if ds.isEmpty then none
    else
      let r3 := r2.drop ds.length
      let k2 := spacesLen r3
      if suf.toList.isPrefixOf (r3.drop k2) then
        some (ds, pre.toList.length + k1 + ds.length + k2 + suf.toList.length)
      else none
  else none

/-- Captured digit groups of `re.finditer` for a `지난\s*(\d+)\s*SUF` rule. -/
def findNumMatches (pre suf : String) (q : String) : List (List Char) :=
  pyScan (matchPreNum pre suf) q.toList

/-- The two-alternative rule `지난\s*(\d+)\s*달|지난\s*(\d+)\s*개월`: the left
alternative binds group 1, the right one group 2. -/
def matchMonth (s : List Char) : Option ((Option (List Char) × Option (List Char)) × Nat) :=
  match matchPreNum ("지난") ("달") s with
  | some (d, n) => some ((some d, none), n)
  | none =>
      match matchPreNum ("지난") ("개월") s with
      | some (d, n) => some ((none, some d), n)
      | none => none

/-- `m.group(1) or m.group(2)` fed to `int()`: an unset group is `None`
(`int(None)` raises `TypeError`), an empty capture is falsy
(`int('')` raises `ValueError`); `\d+` captures are never empty. -/
def pyOrGroups : Option (List Char) → Option (List Char) → Except String (List Char)
  | some d, g2 =>
      if d.isEmpty then
        match g2 with
        | some d2 =>
            if d2.isEmpty then
              .error ("invalid literal for int() with base 10: ''")
            else .ok d2
        | none =>
            .error
              ("int() argument must be a string, a bytes-like object or a real number, not 'NoneType'")
      else .ok d
  | none, g2 =>
      match g2 with
      | some d2 =>
          if d2.isEmpty then
            .error ("invalid literal for int() with base 10: ''")
          else .ok d2
      | none =>
          .error
            ("int() argument must be a string, a bytes-like object or a real number, not 'NoneType'")

/-- Rule lambda for `지난\s*(\d+)\s*년`:
`sale_date >= DATE('{now - timedelta(days = n * 365)}')`. -/
def evalYearsRule (cc : Clock) (ds : List Char) : Except String String := do
  let n := pyInt ds
  let _ ← timedeltaDays (n * 365)
  let s ← cc.minusDaysStr (n * 365)
  pure ("sale_date >= DATE('" ++ s ++ "')")

/-- Rule lambda for the month alternation:
`sale_date >= DATE('{now - timedelta(days = int(g1 or g2) * 30)}')`. -/
def evalMonthsRule (cc : Clock) (g : Option (List Char) × Option (List Char)) :
    Except String String := do
  let ds ← pyOrGroups g.1 g.2
  let n := pyInt ds
  let _ ← timedeltaDays (n * 30)
  let s ← cc.minusDaysStr (n * 30)
  pure ("sale_date >= DATE('" ++ s ++ "')")

/-- Rule lambda for `지난\s*(\d+)\s*주`:
`sale_date >= DATE('{now - timedelta(weeks = n)}')`. -/
def evalWeeksRule (cc : Clock) (ds : List Char) : Except String String := do
  let n := pyInt ds
  let _ ← timedeltaWeeks n
  let s ← cc.minusWeeksStr n
  pure ("sale_date >= DATE('" ++ s ++ "')")

/-- Rule lambda for `지난\s*(\d+)\s*일`:
`sale_date >= DATE('{now - timedelta(days = n)}')`. -/
def evalDaysRule (cc : Clock) (ds : List Char) : Except String String := do
  let n := pyInt ds
  let _ ← timedeltaDays n
  let s ← cc.minusDaysStr n
  pure ("sale_date >= DATE('" ++ s ++ "')")

/-- Static pattern text `올해|금년`, rendered once at pattern-table
construction from the construction-time clock. -/
def condThisYear (ic : Clock) : String :=
  "EXTRACT(YEAR FROM sale_date) = " ++ toString ic.year

/-- Static pattern text `작년|지난해`. -/
def condLastYear (ic : Clock) : String :=
  "EXTRACT(YEAR FROM sale_date) = " ++ toString (ic.year - 1)

/-- Static pattern text `이번\s*달|이번\s*월`. -/
def condThisMonth (ic : Clock) : String :=
  "EXTRACT(YEAR FROM sale_date) = " ++ toString ic.year ++
    " AND EXTRACT(MONTH FROM sale_date) = " ++ toString ic.month

/-- Static pattern text `지난\s*달|저번\s*달` (the year is not decremented in
January; the source computes `month - 1 if month > 1 else 12`). -/
def condLastMonth (ic : Clock) : String :=
  "EXTRACT(YEAR FROM sale_date) = " ++ toString ic.year ++
    " AND EXTRACT(MONTH FROM sale_date) = " ++
    toString (if ic.month > 1 then ic.month - 1 else 12)

/-- Occurrence count of a static alternation under `re.finditer` (each match
appends one copy of the rule's condition string). -/
def countPats (alts : List Pat) (q : String) : Nat :=
  (pyScan (fun s => (matchAlts alts s).map (fun n => ((), n))) q.toList).length

/-- Conditions contributed by one static time rule. -/
def staticConds (alts : List Pat) (cond : String) (q : String) : List String :=
  List.replicate (countPats alts q) cond

/-- `NaturalLanguageProcessor._extract_time_conditions`: iterate the time
pattern table in declaration order, appending one condition per `finditer`
match; evaluating a computed rule can raise, which aborts the extraction
(there is no local recovery in the source). -/
def extract_time_conditions (ic cc : Clock) (q : String) : Except String (List String) := do
  let l1 ← (findNumMatches ("지난") ("년") q).mapM (evalYearsRule cc)
  let l2 ← (pyScan matchMonth q.toList).mapM (evalMonthsRule cc)
  let l3 ← (findNumMatches ("지난") ("주") q).mapM (evalWeeksRule cc)
  let l4 ← (findNumMatches ("지난") ("일") q).mapM (evalDaysRule cc)
  let l5 := staticConds [.lit ("올해"), .lit ("금년")] (condThisYear ic) q
  let l6 := staticConds [.lit ("작년"), .lit ("지난해")] (condLastYear ic) q
  let l7 := staticConds [.lit2 ("이번") ("달"), .lit2 ("이번") ("월")] (condThisMonth ic) q
  let l8 := staticConds [.lit2 ("지난") ("달"), .lit2 ("저번") ("달")] (condLastMonth ic) q
  let l9 := staticConds [.lit ("봄")] ("EXTRACT(MONTH FROM sale_date) IN (3, 4, 5)") q
  let l10 := staticConds [.lit ("여름")] ("EXTRACT(MONTH FROM sale_date) IN (6, 7, 8)") q
  let l11 := staticConds [.lit ("가을")] ("EXTRACT(MONTH FROM sale_date) IN (9, 10, 11)") q
  let l12 := staticConds [.lit ("겨울")] ("EXTRACT(MONTH FROM sale_date) IN (12, 1, 2)") q
  let l13 := staticConds [.lit ("평일")] ("EXTRACT(DOW FROM sale_date) BETWEEN 1 AND 5") q
  let l14 := staticConds [.lit ("주말")] ("EXTRACT(DOW FROM sale_date) IN (0, 6)") q
  pure (l1 ++ l2 ++ l3 ++ l4 ++ l5 ++ l6 ++ l7 ++ l8 ++ l9 ++ l10 ++ l11 ++ l12 ++ l13 ++ l14)

/-- The three entity dict shapes produced by `_extract_entities`: business
terms carry `column`, `table`, `aggregation`; location and category entities
carry `column` and an inline `condition` (and no `table` key). -/
inductive Entity where
  | business_term (value column table aggregation : String)
  | location (value column condition : String)
  | category (value column condition : String)
deriving DecidableEq

/-- `entity['type'] == 'business_term'`. -/
def Entity.isBusiness : Entity → Bool
  | .business_term _ _ _ _ => true
  | _ => false

/-- `entity['table']` when the `table` key is present. -/
def entityTable : Entity → Option String
  | .business_term _ _ t _ => some t
  | _ => none

/-- `entity['condition']` when the `condition` key is present. -/
def entityCondition : Entity → Option String
  | .location _ _ c => some c
  | .category _ _ c => some c
  | _ => none

/-- One entry of `_initialize_business_terms` (dict order preserved). -/
structure BTerm where
  term : String
  patterns : List Pat
  column : String
  table : String
  aggregation : String

/-- The business-term table of `_initialize_business_terms`. -/
def business_terms : List BTerm :=
  [ { term := "revenue",
      patterns := [.lit ("매출"), .lit ("수익"), .lit ("매출액"), .lit ("수입"), .lit ("판매액")],
      column := "sales.amount", table := "sales", aggregation := "SUM" },
    { term := "profit",
      patterns := [.lit ("수익"), .lit ("이익"), .lit ("순이익")],
      column := "sales.amount - (order_items.quantity * products.price * 0.7)",
      table := "sales", aggregation := "SUM" },
    { term := "customer_count",
      patterns := [.lit2 ("고객") ("수"), .lit2 ("고객") ("숫자"), .lit2 ("회원") ("수")],
      column := "customers.id", table := "customers", aggregation := "COUNT(DISTINCT" },
    { term := "customer_age",
      patterns := [.lit2 ("고객") ("나이"), .lit ("연령"), .lit ("나이")],
      column := "customers.age", table := "customers", aggregation := "AVG" },
    { term := "product_count",
      patterns := [.lit2 ("제품") ("수"), .lit2 ("상품") ("수"), .lit2 ("아이템") ("수")],
      column := "products.id", table := "products", aggregation := "COUNT" },
    { term := "inventory",
      patterns := [.lit ("재고"), .lit ("재고량"), .lit ("보유량")],
      column := "products.stock_quantity", table := "products", aggregation := "SUM" },
    { term := "order_count",
      patterns := [.lit2 ("주문") ("수"), .lit2 ("주문") ("건수"), .lit2 ("거래") ("건수")],
      column := "orders.id", table := "orders", aggregation := "COUNT" },
    { term := "order_amount",
      patterns := [.lit2 ("주문") ("금액"), .lit2 ("거래") ("금액"), .lit ("주문액")],
      column := "orders.total_amount", table := "orders", aggregation := "AVG" } ]

/-- Fixed location vocabulary. -/
def regionsList : List String :=
  ["서울", "부산", "대구", "인천", "광주", "대전", "울산", "수원", "창원", "성남"]

/-- Fixed category vocabulary. -/
def categoriesList : List String :=
  ["전자제품", "의류", "식품", "생활용품", "화장품"]

/-- `NaturalLanguageProcessor._extract_entities`: every business pattern that
matches appends its own entity (no deduplication), then substring membership
for regions and categories. -/
def extract_entities (q : String) : List Entity :=
  (business_terms.map (fun t =>
      t.patterns.filterMap (fun p =>
        if searchPats [p] q then
          some (Entity.business_term t.term t.column t.table t.aggregation)
        else none))).flatten
  ++ regionsList.filterMap (fun r =>
      if sContains q r then
        some (Entity.location r ("customers.city") ("customers.city = '" ++ r ++ "'"))
      else none)
  ++ categoriesList.filterMap (fun c =>
      if sContains q c then
        some (Entity.category c ("products.category") ("products.category = '" ++ c ++ "'"))
      else none)

/-- One extracted aggregation: `{'function': ..., 'pattern': ...}`. -/
structure Agg where
  function : String
  pattern : String
deriving DecidableEq

/-- One entry of `_initialize_aggregation_terms` (regex source, alternatives,
mapped function). -/
structure AggTerm where
  src : String
  alts : List Pat
  func : String

/-- Alternatives of `상위|top`. -/
def topAlts : List Pat := [.lit ("상위"), .lit ("top")]

/-- Alternatives of `하위|bottom`. -/
def bottomAlts : List Pat := [.lit ("하위"), .lit ("bottom")]

/-- The aggregation-verb table of `_initialize_aggregation_terms` in dict
order; the last two entries are the "ranking" markers whose mapped text
contains `LIMIT`. -/
def aggregation_terms : List AggTerm :=
  [ { src := "총|전체|합계", alts := [.lit ("총"), .lit ("전체"), .lit ("합계")], func := "SUM" },
    { src := "평균|avg", alts := [.lit ("평균"), .lit ("avg")], func := "AVG" },
    { src := "최대|최고|max", alts := [.lit ("최대"), .lit ("최고"), .lit ("max")], func := "MAX" },
    { src := "최소|최저|min", alts := [.lit ("최소"), .lit ("최저"), .lit ("min")], func := "MIN" },
    { src := "개수|수량|건수|count",
      alts := [.lit ("개수"), .lit ("수량"), .lit ("건수"), .lit ("count")], func := "COUNT" },
    { src := "상위|top", alts := topAlts, func := "ORDER BY {column} DESC LIMIT" },
    { src := "하위|bottom", alts := bottomAlts, func := "ORDER BY {column} ASC LIMIT" } ]

/-- `NaturalLanguageProcessor._extract_aggregations`. -/
def extract_aggregations (q : String) : List Agg :=
  aggregation_terms.filterMap (fun t =>
    if searchPats t.alts q then some { function := t.func, pattern := t.src } else none)

/-- Match `(\d+)만원\s*SUF` or `(\d+)\s*세\s*SUF` at the current position:
digits, an optional `\s*` (present only before `세`), the middle literal,
`\s*`, and the suffix literal. -/
def matchNumMid (mid suf : String) (spaceBeforeMid : Bool) (s : List Char) :
    Option (List Char × Nat) :=
  let ds := s.takeWhile isPyDigit
  if ds.isEmpty then none
  else
    let r1 := s.drop ds.length
    let k1 := if spaceBeforeMid then spacesLen r1 else 0
    let r2 := r1.drop k1
    if mid.toList.isPrefixOf r2 then
      let r3 := r2.drop mid.toList.length
      let k2 := spacesLen r3
      if suf.toList.isPrefixOf (r3.drop k2) then
        some (ds, ds.length + k1 + mid.toList.length + k2 + suf.toList.length)
      else none
    else none

/-- `NaturalLanguageProcessor._extract_filters`: the 만원 rules convert the
capture with `int(...) * 10000`, the 세 rules splice the raw capture text. -/
def extract_filters (q : String) : List String :=
  (pyScan (matchNumMid ("만원") ("이상") false) q.toList).map
      (fun ds => "total_amount >= " ++ toString (pyInt ds * 10000))
  ++ (pyScan (matchNumMid ("만원") ("이하") false) q.toList).map
      (fun ds => "total_amount <= " ++ toString (pyInt ds * 10000))
  ++ (pyScan (matchNumMid ("세") ("이상") true) q.toList).map
      (fun ds => "customers.age >= " ++ String.mk ds)
  ++ (pyScan (matchNumMid ("세") ("이하") true) q.toList).map
      (fun ds => "customers.age <= " ++ String.mk ds)

/-- `NaturalLanguageProcessor._extract_sorting`. -/
def extract_sorting (q : String) : Option String :=
  if searchPats [.lit2 ("높은") ("순"), .lit2 ("많은") ("순"), .lit2 ("큰") ("순")] q then
    some ("DESC")
  else if searchPats [.lit2 ("낮은") ("순"), .lit2 ("적은") ("순"), .lit2 ("작은") ("순")] q then
    some ("ASC")
  else none

/-- One entry of the grouping table of `_extract_grouping`. -/
structure GTerm where
  alts : List Pat
  column : String

/-- The grouping-phrase table, in dict order. -/
def group_patterns : List GTerm :=
  [ { alts := [.lit ("지역별"), .lit ("도시별")], column := "customers.city" },
    { alts := [.lit ("카테고리별"), .lit ("분류별")], column := "products.category" },
    { alts := [.lit ("월별"), .lit ("달별")], column := "EXTRACT(MONTH FROM sale_date)" },
    { alts := [.lit ("년도별"), .lit ("연도별")], column := "EXTRACT(YEAR FROM sale_date)" },
    { alts := [.lit ("요일별")], column := "EXTRACT(DOW FROM sale_date)" },
    { alts := [.lit ("고객별")], column := "customers.id" },
    { alts := [.lit ("제품별"), .lit ("상품별")], column := "products.id" },
    { alts := [.lit ("회사별"), .lit ("업체별")], column := "companies.name" } ]

/-- `NaturalLanguageProcessor._extract_grouping`. -/
def extract_grouping (q : String) : List String :=
  group_patterns.filterMap (fun t => if searchPats t.alts q then some t.column else none)

/-- `NaturalLanguageProcessor._detect_intent`: keyword buckets tested in fixed
priority order over the lowercased question. -/
def detect_intent (q : String) : String :=
  let ql := pyLower q
  if [("비교"), ("차이"), ("대비")].any (fun p => sContains ql p) then "comparison"
  else if [("추세"), ("트렌드"), ("변화"), ("증가"), ("감소")].any (fun p => sContains ql p) then
    "trend"
  else if [("상위"), ("top"), ("최고"), ("가장 많이")].any (fun p => sContains ql p) then
    "ranking"
  else if [("분포"), ("분석"), ("통계")].any (fun p => sContains ql p) then "distribution"
  else if [("총"), ("합계"), ("전체")].any (fun p => sContains ql p) then "aggregation"
  else "general"

/-- The `ParsedQuery` intermediate representation. -/
structure Parsed where
  intent : String
  entities : List Entity
  time_conditions : List String
  aggregations : List Agg
  filters : List String
  sorting : Option String
  grouping : List String
deriving DecidableEq

/-- `NaturalLanguageProcessor.parse_natural_language`: only the time-condition
extraction can raise; an exception there propagates out of `parse` (nothing is
recovered locally). -/
def parse_natural_language (ic cc : Clock) (q : String) : Except String Parsed :=
  match extract_time_conditions ic cc q with
  | .error e => .error e
  | .ok tcs =>
      .ok { intent := detect_intent q
            entities := extract_entities q
            time_conditions := tcs
            aggregations := extract_aggregations q
            filters := extract_filters q
            sorting := extract_sorting q
            grouping := extract_grouping q }

/-- One table's introspection data, as assembled by `_load_schema_info`. -/
structure SchemaTable where
  columns : List (String × String)
  foreign_keys : List String
  indexes : List String
deriving DecidableEq

/-- The loaded schema catalog: `{table name: {...}}` (empty when schema
loading failed). -/
def SchemaInfo : Type := List (String × SchemaTable)

/-- The state of an `AdvancedSQLService` instance, with the two runtime
effects it closes over made explicit: the clock captured when the pattern
table was built, and the process's set iteration order (the sequence
`list(set)` produces from the insertion-ordered distinct elements — fixed for
one process, but not guaranteed to preserve insertion order). -/
structure AdvancedSQLService where
  init_clock : Clock
  set_order : List String → List String
  schema_info : SchemaInfo

/-- A faithful model of a set-iteration order: it yields some permutation of
the distinct inserted elements. -/
def SetOrderWF (f : List String → List String) : Prop :=
  ∀ l : List String, (f l).Perm l

/-- Successive `set.add` in iteration order: the insertion-ordered list of
distinct elements (the set's value; its iteration order is `set_order`). -/
def setInsertList (l : List String) : List String :=
  l.foldl (fun acc x => if x ∈ acc then acc else acc ++ [x]) []

/-- Step of the entity loop of `_build_select_clause`: a business-term entity
appends `aggregation(column)`, with an extra trailing `)` whenever the
aggregation text contains `COUNT` (intended to close `COUNT(DISTINCT`, but it
also fires for plain `COUNT`). -/
def selectAppend (acc : List String) (e : Entity) : List String :=
  match e with
  | .business_term _ col _ agg =>
      if sContains agg ("COUNT") then acc ++ [agg ++ "(" ++ col ++ "))"]
      else acc ++ [agg ++ "(" ++ col ++ ")"]
  | _ => acc

/-- Step of the grouping loop of `_build_select_clause`. -/
def groupColAppend (acc : List String) (g : String) : List String :=
  if g ∈ acc then acc else acc ++ [g]

/-- `AdvancedSQLService._build_select_clause`. -/
def build_select_clause (p : Parsed) : String :=
  let cols := p.entities.foldl selectAppend []
  let cols := p.grouping.foldl groupColAppend cols
  let cols := if cols.isEmpty then [("*")] else cols
  String.intercalate (", ") cols

/-- `AdvancedSQLService._build_from_clause`: `list(main_tables)[0]` over the
set of entity tables, default `'sales'`. -/
def build_from_clause (svc : AdvancedSQLService) (p : Parsed) : String :=
  let main_tables := setInsertList (p.entities.filterMap entityTable)
  if main_tables.isEmpty then "sales"
  else ((svc.set_order main_tables).headD (""))

/-- The declared join-edge list of `_build_joins`. -/
def join_patterns : List (String × String × String) :=
  [ ("sales", "orders", "sales.order_id = orders.id"),
    ("orders", "customers", "orders.customer_id = customers.id"),
    ("orders", "order_items", "orders.id = order_items.order_id"),
    ("order_items", "products", "order_items.product_id = products.id"),
    ("products", "companies", "products.company_id = companies.id") ]

/-- `AdvancedSQLService._build_joins`: emit an edge when both endpoints are in
the set of entity tables (set membership only, so iteration order is
irrelevant here). -/
def build_joins (p : Parsed) : List String :=
  let req := p.entities.filterMap entityTable
  join_patterns.filterMap (fun e =>
    if e.1 ∈ req ∧ e.2.1 ∈ req then some ("JOIN " ++ e.2.1 ++ " ON " ++ e.2.2) else none)

/-- `AdvancedSQLService._build_where_clause`. -/
def build_where_clause (p : Parsed) : List String :=
  p.time_conditions ++ p.filters ++ p.entities.filterMap entityCondition

/-- `AdvancedSQLService._build_group_by`. -/
def build_group_by (p : Parsed) : List String := p.grouping

/-- `AdvancedSQLService._build_having_clause` (the entity loop appends
nothing; always empty). -/
def build_having_clause (_p : Parsed) : List String := []

/-- `AdvancedSQLService._build_order_by`: emitted only when a direction was
detected; the sort column is the first business-term entity's
`aggregation(column)` (every business entity has an aggregation), literal `1`
otherwise. -/
def build_order_by (p : Parsed) : Option String :=
  match p.sorting with
  | none => none
  | some dir =>
      let sort_column :=
        match p.entities.find? Entity.isBusiness with
        | some (.business_term _ col _ agg) => agg ++ "(" ++ col ++ ")"
        | _ => "1"
      some (sort_column ++ " " ++ dir)

/-- `AdvancedSQLService._build_limit_clause`: the first aggregation whose
mapped function contains `LIMIT` yields the fixed default 5 (the number in
the question is never consulted). -/
def build_limit_clause (p : Parsed) : Option Nat :=
  match p.aggregations.find? (fun a => sContains a.function ("LIMIT")) with
  | some _ => some 5
  | none => none

/-- The `QueryComponents` record built by `_build_sql_components`. -/
structure Components where
  select : String
  from_ : String
  joins : List String
  where_ : List String
  group_by : List String
  having : List String
  order_by : Option String
  limit : Option Nat
deriving DecidableEq

/-- `AdvancedSQLService._build_sql_components`. -/
def build_sql_components (svc : AdvancedSQLService) (p : Parsed) : Components :=
  { select := build_select_clause p
    from_ := build_from_clause svc p
    joins := build_joins p
    where_ := build_where_clause p
    group_by := build_group_by p
    having := build_having_clause p
    order_by := build_order_by p
    limit := build_limit_clause p }

/-- `AdvancedSQLService._assemble_sql_query`: successive appends guarded by
Python truthiness (`None`, empty lists, the empty string and the integer 0
are all falsy), joined with newlines. -/
def assemble_sql_query (c : Components) : String :=
  let parts := [("SELECT " ++ c.select)]
  let parts := parts ++ [("FROM " ++ c.from_)]
  let parts := parts ++ c.joins
  let parts := parts ++
    (if c.where_.isEmpty then [] else ["WHERE " ++ String.intercalate (" AND ") c.where_])
  let parts := parts ++
    (if c.group_by.isEmpty then [] else ["GROUP BY " ++ String.intercalate (", ") c.group_by])
  let parts := parts ++
    (if c.having.isEmpty then [] else ["HAVING " ++ String.intercalate (" AND ") c.having])
  let parts := parts ++
    (match c.order_by with
     | some s => if s.isEmpty then [] else ["ORDER BY " ++ s]
     | none => [])
  let parts := parts ++
    (match c.limit with
     | some n => if n = 0 then [] else ["LIMIT " ++ toString n]
     | none => [])
  String.intercalate ("\n") parts

/-- Lowercased character list of a string (`re.IGNORECASE` is modelled by
lowercasing text and patterns before literal matching; case does not change
word-character status in this alphabet). -/
def toLowerList (s : String) : List Char := s.toList.map Char.toLower

/-- Matcher for `\bW\b` over a list of (lowercased) alternatives, with the
alternation tried in order at each position. -/
def matchWordAlts (alts : List (List Char)) (prev : Option Char) (s : List Char) :
    Option (Unit × Nat) :=
  if boundaryL prev then
    match alts.find? (fun w => w.isPrefixOf s && boundaryR (s.drop w.length)) with
    | some w => some ((), w.length)
    | none => none
  else none

/-- Number of `re.findall` matches of a word-bounded alternation, case
insensitively. -/
def countWordAlts (alts : List String) (sql : String) : Nat :=
  (pyScanB (matchWordAlts (alts.map (fun a => a.toList))) (toLowerList sql)).length

/-- `len(re.findall(r'\bJOIN\b', sql, re.IGNORECASE))`. -/
def joinCount (sql : String) : Nat := countWordAlts [("join")] sql

/-- `len(re.findall(r'\b(SUM|AVG|COUNT|MAX|MIN)\b', sql, re.IGNORECASE))`. -/
def aggTokenCount (sql : String) : Nat :=
  countWordAlts [("sum"), ("avg"), ("count"), ("max"), ("min")] sql

/-- `re.search(r'\bGROUP BY\b', sql, re.IGNORECASE) is not None`. -/
def groupByPresent (sql : String) : Bool := countWordAlts [("group by")] sql ≠ 0

/-- `re.search(r'\bORDER BY\b', sql, re.IGNORECASE) is not None`. -/
def orderByPresent (sql : String) : Bool := countWordAlts [("order by")] sql ≠ 0

/-- Matcher for `\(\s*SELECT\b` (already lowercased text). -/
def matchParenSelect (s : List Char) : Option (Unit × Nat) :=
  match s with
  | '(' :: r =>
      let k := spacesLen r
      if ("select").toList.isPrefixOf (r.drop k) && boundaryR ((r.drop k).drop 6) then
        some ((), 1 + k + 6)
      else none
  | _ => none

/-- `len(re.findall(r'\(\s*SELECT\b', sql, re.IGNORECASE))`: the subquery
count used by `_calculate_complexity`. -/
def parenSelectCount (sql : String) : Nat :=
  (pyScan matchParenSelect (toLowerList sql)).length

/-- `str.split('\n')` on the character list. -/
def splitLines : List Char → List (List Char)
  | [] => [[]]
  | '\n' :: rest => [] :: splitLines rest
  | c :: rest =>
      match splitLines rest with
      | [] => [[c]]
      | l :: ls => (c :: l) :: ls

/-- The maximal word-character runs of a line (the candidate `\b`-delimited
tokens). -/
def wordsOf : List Char → List (List Char)
  | [] => []
  | c :: rest =>
      if isWordChar c then
        match wordsOf rest with
        | [] => [[c]]
        | l :: ls =>
            match rest with
            | r :: _ => if isWordChar r then (c :: l) :: ls else [c] :: l :: ls
            | [] => [[c]]
      else wordsOf rest

/-- Token list `pats` occurs as a subsequence of `toks`. -/
def seqTokens : List (List Char) → List (List Char) → Bool
  | [], _ => true
  | _ :: _, [] => false
  | p :: ps, t :: ts => if t = p then seqTokens ps ts else seqTokens (p :: ps) ts

/-- `len(re.findall(r'\bSELECT\b.*\bFROM\b.*\bSELECT\b', sql, re.IGNORECASE))`:
`.` does not cross newlines, so matches live on single lines; on one line the
leftmost match is greedy up to the last `SELECT` token preceded by a `FROM`,
after which no further `SELECT`-`FROM`-`SELECT` subsequence can remain — hence
each line contributes 1 exactly when its word tokens contain the subsequence
`SELECT`, `FROM`, `SELECT`, and 0 otherwise.  This is the subquery count used
by `_analyze_performance`. -/
def perfSubqueryCount (sql : String) : Nat :=
  ((splitLines (toLowerList sql)).filter (fun l =>
    seqTokens [("select").toList, ("from").toList, ("select").toList] (wordsOf l))).length

/-- First occurrence of a literal in the text, returning the suffix after it. -/
def findAfter (pat : List Char) : List Char → Option (List Char)
  | [] => if pat.isPrefixOf [] then some [] else none
  | s@(_ :: rest) =>
      if pat.isPrefixOf s then some (s.drop pat.length) else findAfter pat rest

/-- `re.search` existence for a pattern of literals separated by `.*`, on one
line: take the first occurrence of each literal in turn. -/
def seqSub : List (List Char) → List Char → Bool
  | [], _ => true
  | p :: ps, l =>
      match findAfter p l with
      | some r => seqSub ps r
      | none => false

/-- `re.search(r'WHERE.*customers\.city', sql, re.IGNORECASE)`: some line
contains `WHERE` followed by `customers.city`. -/
def ruleWhereCity (sql : String) : Bool :=
  (splitLines (toLowerList sql)).any (fun l =>
    seqSub [("where").toList, ("customers.city").toList] l)

/-- `re.search(r'JOIN.*JOIN.*JOIN', sql, re.IGNORECASE)`: some line contains
three successive (non-overlapping) `JOIN` literals. -/
def ruleTripleJoin (sql : String) : Bool :=
  (splitLines (toLowerList sql)).any (fun l =>
    seqSub [("join").toList, ("join").toList, ("join").toList] l)

/-- `re.search(r'ORDER BY.*(?!LIMIT)', sql, re.IGNORECASE)`: the greedy `.*`
can always stop at the end of a line, where the negative lookahead trivially
succeeds, so the rule fires exactly when `ORDER BY` occurs at all. -/
def ruleOrderByNoLimit (sql : String) : Bool :=
  sContains (pyLower sql) ("order by")

/-- One optimizer anti-pattern rule. -/
structure OptRule where
  name : String
  fires : String → Bool
  suggestion : String
  optimization : Option String

/-- `QueryOptimizer._initialize_optimization_rules`, in declaration order. -/
def optimization_rules : List OptRule :=
  [ { name := "index_hint", fires := ruleWhereCity,
      suggestion := "customers.city 컬럼에 인덱스 생성을 고려해보세요.",
      optimization := some ("CREATE INDEX idx_customers_city ON customers(city);") },
    { name := "join_optimization", fires := ruleTripleJoin,
      suggestion := "다중 JOIN 쿼리입니다. 필요한 컬럼만 SELECT하는 것을 권장합니다.",
      optimization := none },
    { name := "limit_suggestion", fires := ruleOrderByNoLimit,
      suggestion := "정렬 쿼리에 LIMIT를 추가하면 성능이 향상됩니다.",
      optimization := none } ]

/-- The `performance_analysis` record of `_analyze_performance`. -/
structure PerfAnalysis where
  estimated_complexity : String
  join_count : Nat
  subquery_count : Nat
  aggregation_count : Nat
deriving DecidableEq

/-- `QueryOptimizer._analyze_performance`: counts over the generated SQL text
and the weighted-sum tier (low ≤ 3 < medium ≤ 8 < high). -/
def analyze_performance (sql : String) : PerfAnalysis :=
  let j := joinCount sql
  let s := perfSubqueryCount sql
  let a := aggTokenCount sql
  let score := j * 2 + s * 3 + a * 1
  { estimated_complexity := if score ≤ 3 then "low" else if score ≤ 8 then "medium" else "high"
    join_count := j
    subquery_count := s
    aggregation_count := a }

/-- `QueryOptimizer._calculate_complexity`: a separate computation from
`_analyze_performance`, counting parenthesised subqueries (`\(\s*SELECT\b`)
rather than the nested `SELECT.*FROM.*SELECT` text pattern. -/
def calculate_complexity (sql : String) : Nat :=
  1 + joinCount sql * 2 + parenSelectCount sql * 3 + aggTokenCount sql
    + (if groupByPresent sql then 2 else 0)
    + (if orderByPresent sql then 1 else 0)

/-- The `OptimizationReport`. -/
structure Optimization where
  suggestions : List String
  optimizations : List String
  performance_analysis : PerfAnalysis
  complexity_score : Nat
deriving DecidableEq

/-- `QueryOptimizer.optimize_query`: every matching rule fires independently
(suggestions in rule order, DDL only where present). -/
def optimize_query (sql : String) : Optimization :=
  let fired := optimization_rules.filter (fun r => r.fires sql)
  { suggestions := fired.map (fun r => r.suggestion)
    optimizations := fired.filterMap (fun r => r.optimization)
    performance_analysis := analyze_performance sql
    complexity_score := calculate_complexity sql }

/-- `dict.get(key, default)` over an association list. -/
def lookupD (m : List (String × String)) (k d : String) : String :=
  match m.find? (fun kv => kv.1 = k) with
  | some kv => kv.2
  | none => d

/-- The intent label dictionary of `_generate_explanation`. -/
def intent_descriptions : List (String × String) :=
  [ ("comparison", "데이터 비교 분석"), ("trend", "트렌드 분석"), ("ranking", "순위 분석"),
    ("distribution", "분포 분석"), ("aggregation", "집계 분석"), ("general", "일반 조회") ]

/-- `AdvancedSQLService._generate_explanation` (pure formatting; the tables
listing iterates a set, hence uses the process set order). -/
def generate_explanation (svc : AdvancedSQLService) (p : Parsed) (_c : Components)
    (opt : Optimization) : String :=
  let parts := [("🔍 **쿼리 분석 결과:**")]
  let parts := parts ++
    ["- **분석 유형**: " ++ lookupD intent_descriptions p.intent ("일반 조회")]
  let tables := setInsertList (p.entities.filterMap entityTable)
  let parts := parts ++
    (if tables.isEmpty then [] else
      ["- **대상 테이블**: " ++ String.intercalate (", ") (svc.set_order tables)])
  let parts := parts ++
    (if p.time_conditions.isEmpty then [] else
      ["- **시간 조건**: " ++ toString p.time_conditions.length ++ "개 적용"])
  let parts := parts ++
    (if p.grouping.isEmpty then [] else
      ["- **그룹화**: " ++ String.intercalate (", ") p.grouping])
  let cdesc := lookupD [("low", "낮음"), ("medium", "보통"), ("high", "높음")]
      opt.performance_analysis.estimated_complexity ("보통")
  let parts := parts ++
    ["- **쿼리 복잡도**: " ++ cdesc ++ " (점수: " ++ toString opt.complexity_score ++ ")"]
  let parts := parts ++
    (if opt.suggestions.isEmpty then [] else
      ["\n💡 **최적화 제안:**"] ++ opt.suggestions.map (fun s => "- " ++ s))
  String.intercalate ("\n") parts

/-- The `Result` of `generate_advanced_sql`: the success dict
(`success: True`) or the failure dict (`success: False`, `sql_query: None`,
and the error-derived explanation). -/
inductive GenResult where
  | success (sql_query : String) (parsed_intent : Parsed) (optimization : Optimization)
      (explanation : String) (complexity_score : Nat)
  | failure (error : String) (explanation : String)
deriving DecidableEq

/-- `AdvancedSQLService.generate_advanced_sql`: the sole error boundary — an
exception from any stage (in this pipeline, only time-rule evaluation can
raise) is caught and converted to the failure variant. -/
def generate_advanced_sql (svc : AdvancedSQLService) (cc : Clock) (q : String) : GenResult :=
  match parse_natural_language svc.init_clock cc q with
  | .error e => .failure e ("SQL 생성 중 오류가 발생했습니다: " ++ e)
  | .ok parsed =>
      let comps := build_sql_components svc parsed
      let sql := assemble_sql_query comps
      let opt := optimize_query sql
      let expl := generate_explanation svc parsed comps opt
      .success sql parsed opt expl opt.complexity_score

/-- Whether an `Except` models a non-raising Python computation. -/
def exceptOk {α : Type} : Except String α → Bool
  | .ok _ => true
  | .error _ => false

/-- `'LIMIT' in func`: the "ranking" marker test of `_build_limit_clause`. -/
def limitMarker (f : String) : Bool := sContains f ("LIMIT")

/-- The question contains top/bottom ranking phrasing (`상위|top` or
`하위|bottom`). -/
def rankingMarker (q : String) : Bool :=
  searchPats topAlts q || searchPats bottomAlts q

/-- A string has as many `(` as `)`. -/
def parenBalanced (s : String) : Bool :=
  s.toList.count '(' == s.toList.count ')'

/-- Modelled from the spec's words for the FROM rule (claim C6): "pick the
first table in extraction order, falling back to a canonical default table
when none resolved" — to be compared against the source's set-based
`_build_from_clause`. -/
def from_clause_extraction_order (p : Parsed) : String :=
  match p.entities.filterMap entityTable with
  | [] => "sales"
  | t :: _ => t

/-- Modelled from the spec's words for the assembler (claim C8): fixed clause
order, and "any clause whose component is empty or absent is omitted
entirely" — in particular a present `LIMIT 0` would be emitted and an empty
`SELECT` omitted — to be compared against the source's truthiness-guarded
`_assemble_sql_query`. -/
def assemble_spec_claim (c : Components) : String :=
  String.intercalate ("\n")
    ((if c.select.isEmpty then [] else ["SELECT " ++ c.select])
     ++ (if c.from_.isEmpty then [] else ["FROM " ++ c.from_])
     ++ c.joins
     ++ (if c.where_.isEmpty then [] else
          ["WHERE " ++ String.intercalate (" AND ") c.where_])
     ++ (if c.group_by.isEmpty then [] else
          ["GROUP BY " ++ String.intercalate (", ") c.group_by])
     ++ (if c.having.isEmpty then [] else
          ["HAVING " ++ String.intercalate (" AND ") c.having])
     ++ (match c.order_by with
         | some s => if s.isEmpty then [] else ["ORDER BY " ++ s]
         | none => [])
     ++ (match c.limit with
         | some n => ["LIMIT " ++ toString n]
         | none => []))

/-- The assembler's actual emission discipline (amended claim C8): SELECT and
FROM always; list-valued clauses omitted exactly when empty; ORDER BY omitted
when absent or the empty string; LIMIT omitted when absent or zero (Python
falsiness). -/
def assemble_spec_amended (c : Components) : String :=
  String.intercalate ("\n")
    (["SELECT " ++ c.select, "FROM " ++ c.from_]
     ++ c.joins
     ++ (if c.where_.isEmpty then [] else
          ["WHERE " ++ String.intercalate (" AND ") c.where_])
     ++ (if c.group_by.isEmpty then [] else
          ["GROUP BY " ++ String.intercalate (", ") c.group_by])
     ++ (if c.having.isEmpty then [] else
          ["HAVING " ++ String.intercalate (" AND ") c.having])
     ++ (match c.order_by with
         | some s => if s.isEmpty then [] else ["ORDER BY " ++ s]
         | none => [])
     ++ (match c.limit with
         | some n => if n = 0 then [] else ["LIMIT " ++ toString n]
         | none => []))

/-- A sample clock reading (year 2025, October), with schematic renderings of
`str(now - timedelta(...))`. -/
def sampleClock : Clock :=
  { year := 2025, month := 10,
    minusDaysStr := fun d => .ok ("2025-10-12 09:30:00.000000 - " ++ toString d ++ "d"),
    minusWeeksStr := fun w => .ok ("2025-10-12 09:30:00.000000 - " ++ toString w ++ "w") }

/-- A clock captured at one call instant. -/
def clockA : Clock :=
  { year := 2025, month := 10,
    minusDaysStr := fun _ => .ok ("2024-10-12 09:30:00.000001"),
    minusWeeksStr := fun _ => .ok ("2024-10-12 09:30:00.000001") }

/-- The clock one microsecond later, as read by a second call on the same
service instance. -/
def clockB : Clock :=
  { year := 2025, month := 10,
    minusDaysStr := fun _ => .ok ("2024-10-12 09:30:00.000002"),
    minusWeeksStr := fun _ => .ok ("2024-10-12 09:30:00.000002") }

/-- A service whose process happens to iterate sets in insertion order. -/
def svc0 : AdvancedSQLService :=
  { init_clock := sampleClock, set_order := fun l => l, schema_info := [] }

/-- A service in a process whose (hash-dependent) set iteration order reverses
the insertion order — equally possible under CPython's randomised string
hashing. -/
def svcRev : AdvancedSQLService :=
  { init_clock := sampleClock, set_order := List.reverse, schema_info := [] }

/-- The `ParsedQuery` produced for a question with no recognisable pattern. -/
def parsedHello : Parsed :=
  { intent := "general", entities := [], time_conditions := [], aggregations := [],
    filters := [], sorting := none, grouping := [] }

/-- A `ParsedQuery` whose aggregations come from the question `상위`. -/
def parsedTop : Parsed :=
  { intent := "ranking", entities := [], time_conditions := [],
    aggregations := extract_aggregations ("상위"), filters := [], sorting := none,
    grouping := [] }

/-- A `ParsedQuery` with one revenue business-term entity. -/
def parsedRevenue : Parsed :=
  { intent := "general",
    entities := [Entity.business_term ("revenue") ("sales.amount") ("sales") ("SUM")],
    time_conditions := [], aggregations := [], filters := [], sorting := none,
    grouping := [] }

/-- Components exhibiting Python falsiness in the assembler: an empty SELECT
string and a present `LIMIT 0`. -/
def componentsC8 : Components :=
  { select := "", from_ := "sales", joins := [], where_ := [], group_by := [],
    having := [], order_by := none, limit := some 0 }

/-- SQL text on which the two subquery-counting heuristics disagree: the
parenthesised pattern `\(\s*SELECT\b` matches once, while the single-line
`SELECT.*FROM.*SELECT` pattern never matches (the nesting spans lines). -/
def sqlC9 : String := "SELECT *\nFROM (SELECT id\nFROM t)"

/-- The `sql_query` field of a result (`None` on the failure variant). -/
def GenResult.sqlText : GenResult → Option String
  | .success sql _ _ _ _ => some sql
  | .failure _ _ => none

/-- The `complexity_score` field of a result (`None` on the failure
variant). -/
def GenResult.score : GenResult → Option Nat
  | .success _ _ _ _ sc => some sc
  | .failure _ _ => none

/-- Membership in the insertion-ordered distinct list equals membership in
the inserted sequence. -/
theorem mem_foldl_insert (l : List String) :
    ∀ (acc : List String) (x : String),
      x ∈ l.foldl (fun acc y => if y ∈ acc then acc else acc ++ [y]) acc
        ↔ x ∈ acc ∨ x ∈ l := by
  induction l with
  | nil => intro acc x; simp
  | cons a l ih =>
      intro acc x
      simp only [List.foldl_cons]
      rw [ih]
      by_cases h : a ∈ acc
      · simp only [if_pos h, List.mem_cons]
        constructor
        · rintro (hx | hx)
          · exact Or.inl hx
          · exact Or.inr (Or.inr hx)
        · rintro (hx | rfl | hx)
          · exact Or.inl hx
          · exact Or.inl h
          · exact Or.inr hx
      · simp only [if_neg h, List.mem_append, List.mem_singleton, List.mem_cons]
        tauto

/-- Membership in the modelled set value. -/
theorem mem_setInsertList {x : String} {l : List String} :
    x ∈ setInsertList l ↔ x ∈ l := by
  unfold setInsertList
  rw [mem_foldl_insert]
  simp

/-- The set of inserted elements is empty exactly when nothing was inserted. -/
theorem setInsertList_eq_nil {l : List String} :
    setInsertList l = [] ↔ l = [] := by
  constructor
  · intro h
    cases l with
    | nil => rfl
    | cons a l =>
        exfalso
        have ha : a ∈ setInsertList (a :: l) := mem_setInsertList.mpr (List.mem_cons_self a l)
        rw [h] at ha
        exact List.not_mem_nil a ha
  · rintro rfl; rfl

/-- Entities that are not business terms contribute nothing to the SELECT
column list. -/
theorem foldl_selectAppend_of_no_business :
    ∀ (es : List Entity) (acc : List String),
      (∀ e ∈ es, e.isBusiness = false) → es.foldl selectAppend acc = acc := by
  intro es
  induction es with
  | nil => intro acc _; rfl
  | cons e es ih =>
      intro acc h
      have he : e.isBusiness = false := h e (List.mem_cons_self e es)
      have hstep : selectAppend acc e = acc := by
        cases e with
        | business_term v c t a => simp [Entity.isBusiness] at he
        | location v c cond => rfl
        | category v c cond => rfl
      simp only [List.foldl_cons, hstep]
      exact ih acc (fun e' he' => h e' (List.mem_cons_of_mem e he'))

/-- The limit builder as a conditional on the existence of a ranking-marked
aggregation. -/
theorem build_limit_clause_eq_if (p : Parsed) :
    build_limit_clause p =
      (if p.aggregations.any (fun a => sContains a.function ("LIMIT")) then some 5 else none) := by
  unfold build_limit_clause
  induction p.aggregations with
  | nil => rfl
  | cons a l ih =>
      cases h : sContains a.function ("LIMIT") with
      | true => simp [List.find?_cons, h]
      | false => simpa [List.find?_cons, h] using ih

/-- `any` over a guarded `filterMap`. -/
theorem any_filterMapIf {α β : Type} (p : β → Bool) (g : α → β) (c : α → Bool)
    (l : List α) :
    (l.filterMap (fun a => if c a then some (g a) else none)).any p
      = l.any (fun a => c a && p (g a)) := by
  induction l with
  | nil => rfl
  | cons a l ih =>
      cases h : c a <;> simp [List.filterMap_cons, h, List.any_cons, ih]

/-- The extracted aggregation list carries a `LIMIT`-marked function exactly
when the question used top/bottom ranking phrasing. -/
theorem limit_marker_in_extraction (q : String) :
    (extract_aggregations q).any (fun a => sContains a.function ("LIMIT"))
      = rankingMarker q := by
  unfold extract_aggregations
  rw [any_filterMapIf (fun a => sContains a.function ("LIMIT"))
        (fun t => ({ function := t.func, pattern := t.src } : Agg))
        (fun t => searchPats t.alts q) aggregation_terms]
  have h1 : sContains ("SUM") ("LIMIT") = false := by decide
  have h2 : sContains ("AVG") ("LIMIT") = false := by decide
  have h3 : sContains ("MAX") ("LIMIT") = false := by decide
  have h4 : sContains ("MIN") ("LIMIT") = false := by decide
  have h5 : sContains ("COUNT") ("LIMIT") = false := by decide
  have h6 : sContains ("ORDER BY {column} DESC LIMIT") ("LIMIT") = true := by decide
  have h7 : sContains ("ORDER BY {column} ASC LIMIT") ("LIMIT") = true := by decide
  simp [aggregation_terms, List.any_cons, h1, h2, h3, h4, h5, h6, h7, rankingMarker]

/-- C1 (counterexample): on one service instance, two calls to
`generate_advanced_sql` for the question `지난 1 년`, made at clock instants
one microsecond apart, return different results — the matched relative-time
rule embeds `str(datetime.now() - timedelta(days=365))` into the SQL text at
evaluation time, so the two SQL strings differ byte-wise. -/
theorem C1_counterexample :
    (generate_advanced_sql svc0 clockA ("지난 1 년")).sqlText
      ≠ (generate_advanced_sql svc0 clockB ("지난 1 년")).sqlText := by
  decide

/-- C1 (amended): generation is deterministic as a function of the question,
the service state (pattern table built at construction, set iteration order)
and the clock instant of the call: two calls on the same service at the same
instant return identical results, in particular byte-identical SQL and the
same complexity score. -/
theorem C1_deterministic_given_clock (svc : AdvancedSQLService) (cc1 cc2 : Clock)
    (q : String) (h : cc1 = cc2) :
    generate_advanced_sql svc cc1 q = generate_advanced_sql svc cc2 q := by
  rw [h]

/-- Witness for C1's amended theorem at a concrete service, clock and
question. -/
theorem C1_witness :
    clockA = clockA ∧
      generate_advanced_sql svc0 clockA ("매출")
        = generate_advanced_sql svc0 clockA ("매출") :=
  ⟨rfl, C1_deterministic_given_clock svc0 clockA clockA ("매출") rfl⟩

/-- C4 (counterexample): `parse_natural_language` is not total — for the
question `지난 1000000000 일` the matched relative-time rule evaluates
`timedelta(days=1000000000)`, which raises `OverflowError`; the failing rule
is not skipped and the exception escapes `parse`. -/
theorem C4_counterexample :
    exceptOk (parse_natural_language sampleClock sampleClock ("지난 1000000000 일"))
      = false := by
  decide

/-- C4 (amended): `parse_natural_language` raises exactly when the evaluation
of a matched relative-time rule raises (timedelta/datetime overflow); no
other extraction category can fail, and a failing rule is not recovered
locally — the exception propagates out of `parse`. -/
theorem C4_parse_ok_iff_time_ok (ic cc : Clock) (q : String) :
    exceptOk (parse_natural_language ic cc q)
      = exceptOk (extract_time_conditions ic cc q) := by
  unfold parse_natural_language
  cases h : extract_time_conditions ic cc q <;> rfl

/-- C5: `generate_advanced_sql` never propagates an exception: for every
service state, clock and question it returns either the failure variant
(carrying the error message and the message-derived explanation) or the
success variant whose `complexity_score` field equals the optimization
report's score. -/
theorem C5_error_boundary (svc : AdvancedSQLService) (cc : Clock) (q : String) :
    (∃ e, generate_advanced_sql svc cc q =
        .failure e ("SQL 생성 중 오류가 발생했습니다: " ++ e))
    ∨ (∃ sql p opt expl, generate_advanced_sql svc cc q =
        .success sql p opt expl opt.complexity_score) := by
  cases h : parse_natural_language svc.init_clock cc q with
  | error e =>
      left
      exact ⟨e, by simp [generate_advanced_sql, h]⟩
  | ok p =>
      right
      refine ⟨assemble_sql_query (build_sql_components svc p), p,
        optimize_query (assemble_sql_query (build_sql_components svc p)),
        generate_explanation svc p (build_sql_components svc p)
          (optimize_query (assemble_sql_query (build_sql_components svc p))), ?_⟩
      simp [generate_advanced_sql, h]

/-- C9: the two subquery-counting computations diverge on `sqlC9`:
`_analyze_performance` reports 0 subqueries (its single-line
`SELECT.*FROM.*SELECT` pattern cannot match across the line break) while the
`\(\s*SELECT\b` count used by `_calculate_complexity` is 1, contributing 3 to
the complexity score — the two scorings are distinct computations. -/
theorem C9_subquery_count_divergence :
    (analyze_performance sqlC9).subquery_count = 0
    ∧ parenSelectCount sqlC9 = 1
    ∧ calculate_complexity sqlC9 = 1 + parenSelectCount sqlC9 * 3
    ∧ (analyze_performance sqlC9).subquery_count ≠ parenSelectCount sqlC9 := by
  refine ⟨by decide, by decide, by decide, by decide⟩

/-- C10: the whole result of `generate_advanced_sql` is independent of the
loaded schema catalog: two service states differing only in `schema_info`
(including the empty catalog left by a failed load) produce identical
results, because the generation path never reads `schema_info`. -/
theorem C10_schema_independence (ic : Clock) (so : List String → List String)
    (s1 s2 : SchemaInfo) (cc : Clock) (q : String) :
    generate_advanced_sql { init_clock := ic, set_order := so, schema_info := s1 } cc q
      = generate_advanced_sql { init_clock := ic, set_order := so, schema_info := s2 } cc q :=
  rfl

/-- C2 (counterexample): the question `지역별` matches no business-term
pattern, yet its SELECT clause is `customers.city`, not `*` — grouping
columns enter the SELECT list even without business terms. -/
theorem C2_counterexample :
    (∀ e ∈ extract_entities ("지역별"), e.isBusiness = false)
    ∧ Except.map build_select_clause
        (parse_natural_language sampleClock sampleClock ("지역별"))
        = .ok ("customers.city")
    ∧ ("customers.city" : String) ≠ "*" :=
  ⟨by decide, rfl, by decide⟩

/-- C2 (amended): for every question that matches no business-term pattern
and no grouping phrase, the generated SELECT clause is exactly `*`. -/
theorem C2_select_star (ic cc : Clock) (q : String) (p : Parsed)
    (hp : parse_natural_language ic cc q = .ok p)
    (hnb : ∀ e ∈ extract_entities q, e.isBusiness = false)
    (hg : extract_grouping q = []) :
    build_select_clause p = "*" := by
  unfold parse_natural_language at hp
  cases htc : extract_time_conditions ic cc q with
  | error e => rw [htc] at hp; exact absurd hp (by simp)
  | ok tcs =>
      rw [htc] at hp
      injection hp with hp
      subst hp
      unfold build_select_clause
      rw [foldl_selectAppend_of_no_business (extract_entities q) [] hnb, hg]
      rfl

/-- Witness for C2's amended theorem at the pattern-free question `안녕`. -/
theorem C2_witness :
    parse_natural_language sampleClock sampleClock ("안녕") = .ok parsedHello
    ∧ (∀ e ∈ extract_entities ("안녕"), e.isBusiness = false)
    ∧ extract_grouping ("안녕") = []
    ∧ build_select_clause parsedHello = "*" :=
  ⟨rfl, by decide, rfl,
    C2_select_star sampleClock sampleClock ("안녕") parsedHello rfl (by decide) rfl⟩

/-- C3: evaluating the code at the failing input — the question `제품 수`
resolves one `product_count` business term whose aggregation is plain
`COUNT`, and `_build_select_clause` emits `COUNT(products.id))` with an
unbalanced trailing parenthesis (the extra `)` is meant to close
`COUNT(DISTINCT` but fires for every aggregation containing `COUNT`). -/
theorem C3_count_paren_slip :
    Except.map build_select_clause
        (parse_natural_language sampleClock sampleClock ("제품 수"))
      = .ok ("COUNT(products.id))")
    ∧ parenBalanced ("COUNT(products.id))") = false :=
  ⟨rfl, by decide⟩

/-- C6 (counterexample): for the question `매출 고객 수` the entity tables in
extraction order are `sales` then `customers`; in a process whose set
iteration order reverses insertion order (a legitimate CPython possibility,
witnessed by `SetOrderWF`), `_build_from_clause` returns `customers`, not the
extraction-order-first table `sales` required by the claim. -/
theorem C6_counterexample :
    SetOrderWF svcRev.set_order
    ∧ Except.map (build_from_clause svcRev)
        (parse_natural_language sampleClock sampleClock ("매출 고객 수"))
        = .ok ("customers")
    ∧ Except.map from_clause_extraction_order
        (parse_natural_language sampleClock sampleClock ("매출 고객 수"))
        = .ok ("sales")
    ∧ ("customers" : String) ≠ "sales" :=
  ⟨fun l => l.reverse_perm, rfl, rfl, by decide⟩

/-- C6 (amended): under any set iteration order, the FROM clause is the
canonical default `sales` when no entity resolves a table, and otherwise one
of the tables referenced by the extracted entities — a choice governed by the
runtime's set order, not guaranteed to be the first in extraction order. -/
theorem C6_from_clause_cases (svc : AdvancedSQLService) (p : Parsed)
    (hwf : SetOrderWF svc.set_order) :
    (p.entities.filterMap entityTable = [] ∧ build_from_clause svc p = "sales")
    ∨ build_from_clause svc p ∈ p.entities.filterMap entityTable := by
  unfold build_from_clause
  by_cases h : (setInsertList (p.entities.filterMap entityTable)).isEmpty
  · left
    refine ⟨?_, by simp [h]⟩
    exact setInsertList_eq_nil.mp (List.isEmpty_iff.mp h)
  · right
    simp only [h, if_neg, Bool.false_eq_true, not_false_eq_true, if_false]
    have hperm := hwf (setInsertList (p.entities.filterMap entityTable))
    cases hso : svc.set_order (setInsertList (p.entities.filterMap entityTable)) with
    | nil =>
        exfalso
        rw [hso] at hperm
        exact h (by rw [List.isEmpty_iff, hperm.symm.eq_nil])
    | cons a as =>
        have ha : a ∈ svc.set_order (setInsertList (p.entities.filterMap entityTable)) := by
          rw [hso]; exact List.mem_cons_self a as
        have : a ∈ setInsertList (p.entities.filterMap entityTable) := hperm.mem_iff.mp ha
        have hmem : a ∈ p.entities.filterMap entityTable := mem_setInsertList.mp this
        simpa [hso] using hmem

/-- Witness for C6's amended theorem: a service with the identity set order
and a parsed query with one revenue entity. -/
theorem C6_witness :
    SetOrderWF svc0.set_order
    ∧ ((parsedRevenue.entities.filterMap entityTable = []
          ∧ build_from_clause svc0 parsedRevenue = "sales")
        ∨ build_from_clause svc0 parsedRevenue ∈ parsedRevenue.entities.filterMap entityTable) :=
  ⟨fun l => List.Perm.refl l, C6_from_clause_cases svc0 parsedRevenue (fun l => List.Perm.refl l)⟩

/-- C7: for every parsed query whose aggregations were extracted from a
question, a LIMIT is produced only with the fixed value 5, and it is produced
exactly when the question used the top/bottom ranking phrasing — any number
in the question is ignored. -/
theorem C7_limit_fixed_five (q : String) (p : Parsed)
    (hagg : p.aggregations = extract_aggregations q) :
    (∀ n, build_limit_clause p = some n → n = 5)
    ∧ (build_limit_clause p = some 5 ↔ rankingMarker q = true) := by
  constructor
  · intro n h
    rw [build_limit_clause_eq_if] at h
    by_cases ha : p.aggregations.any (fun a => sContains a.function ("LIMIT"))
    · rw [if_pos ha] at h; injection h with h; exact h.symm
    · rw [if_neg ha] at h; exact absurd h (by simp)
  · rw [build_limit_clause_eq_if, hagg, limit_marker_in_extraction q]
    cases h : rankingMarker q <;> simp [h]

/-- Witness for C7 at the question `상위`. -/
theorem C7_witness :
    parsedTop.aggregations = extract_aggregations ("상위")
    ∧ ((∀ n, build_limit_clause parsedTop = some n → n = 5)
        ∧ (build_limit_clause parsedTop = some 5 ↔ rankingMarker ("상위") = true)) :=
  ⟨rfl, C7_limit_fixed_five ("상위") parsedTop rfl⟩

/-- C8 (counterexample): on a component set with an empty SELECT string and a
present `LIMIT 0`, the assembler emits `SELECT ` anyway and drops the LIMIT
clause (integer falsiness), diverging from the claim's "empty or absent is
omitted, present is emitted" reading. -/
theorem C8_counterexample :
    assemble_sql_query componentsC8 = "SELECT \nFROM sales"
    ∧ assemble_spec_claim componentsC8 = "FROM sales\nLIMIT 0"
    ∧ assemble_sql_query componentsC8 ≠ assemble_spec_claim componentsC8 :=
  ⟨rfl, rfl, by decide⟩

/-- C8 (amended): the assembler emits clauses in the fixed order SELECT,
FROM, JOINs, WHERE, GROUP BY, HAVING, ORDER BY, LIMIT, with SELECT and FROM
always present, the list-valued clauses omitted exactly when empty (WHERE and
HAVING joined with ` AND `, GROUP BY with `, `), ORDER BY omitted when absent
or empty, and LIMIT omitted when absent or zero. -/
theorem C8_assemble_characterization (c : Components) :
    assemble_sql_query c = assemble_spec_amended c := by
  unfold assemble_sql_query assemble_spec_amended
  simp [List.append_assoc]

end DAS
